import Mathlib

/-!
Verification development for the worldbank-mcp server (src/index.ts,
src/types.ts).  The TypeScript source is shallowly embedded: the two
module-level caches become explicit state arguments threaded through the
functions that read and write them, the network becomes an explicit
`upstream` argument describing the outcome of each HTTP request, and the
JSON shapes the code inspects become inductive types carrying exactly the
distinctions the code tests for (array vs object, element truthiness, the
`message` field, the pagination fields).  All functions are computable and
total; every fallible path in the source resolves to a sentinel value, as
it does in the source.
-/

/-- Mirrors the `Region` interface of src/types.ts (also used for
`adminregion`, `incomeLevel` and `lendingType`). -/
structure Region where
  id : String
  iso2code : String
  value : String
deriving DecidableEq

/-- Mirrors the `Country` interface of src/types.ts. -/
structure Country where
  id : String
  iso2Code : String
  name : String
  region : Region
  adminregion : Region
  incomeLevel : Region
  lendingType : Region
  capitalCity : String
  longitude : String
  latitude : String
deriving DecidableEq

/-- Mirrors the `Source` interface of src/types.ts. -/
structure Source where
  id : String
  value : String
deriving DecidableEq

/-- Mirrors the `Topic` interface of src/types.ts. -/
structure Topic where
  id : String
  value : String
deriving DecidableEq

/-- Mirrors the `Indicator` interface of src/types.ts. -/
structure Indicator where
  id : String
  name : String
  unit : String
  source : Source
  sourceNote : String
  sourceOrganization : String
  topics : List Topic
deriving DecidableEq

/-- The id/value pairs embedded in a `DataPoint` (src/types.ts). -/
structure IdValue where
  id : String
  value : String
deriving DecidableEq

/-- Mirrors the `DataPoint` interface of src/types.ts.  The upstream serves
`value` as a nullable JSON number; the code only ever tests it against
`null` and renders it as text, so it is modelled as `Option Int` (no claim
depends on fractional values). -/
structure DataPoint where
  indicator : IdValue
  country : IdValue
  countryiso3code : String
  date : String
  value : Option Int
  unit : String
  obs_status : String
  decimal : Nat
deriving DecidableEq

/-- The pagination metadata object at index 0 of a World Bank response
envelope (the scalar fields of `WorldBankResponse` in src/types.ts). -/
structure Pagination where
  page : Nat
  pages : Nat
  per_page : Nat
  total : Nat
  lastupdated : String
deriving DecidableEq

/-- One element of a JSON array served by the upstream, as far as the code
inspects it: a `null` element (falsy in JS), a plain object that may carry a
`message` field (the error envelope), a pagination-metadata object, or a
nested array of payload records. -/
inductive EnvItem (α : Type) where
  | jnull
  | errObj (message : Option String)
  | meta (p : Pagination)
  | records (xs : List α)
deriving DecidableEq

/-- A response body: either a JSON array or a single (non-array) object.
The code never looks inside a non-array body, so `object` carries no data. -/
inductive HttpBody (α : Type) where
  | array (items : List (EnvItem α))
  | object
deriving DecidableEq

/-- Outcome of one axios request as `makeWorldBankRequest` observes it:
either a parsed body (any status below 500, per `validateStatus`), or a
thrown error (timeout, network failure, a 5xx status, a parse failure) which
the catch block turns into the null sentinel. -/
inductive HttpOutcome (α : Type) where
  | ok (body : HttpBody α)
  | thrown
deriving DecidableEq

/-- JS truthiness of an array element: only `null` is falsy among the
shapes modelled (objects and arrays are always truthy). -/
def itemTruthy : EnvItem α → Bool
  | .jnull => false
  | _ => true

/-- The `message` property read off an array element: present only on the
error-object shape; `undefined` (here `none`) on every other shape. -/
def itemMessage : EnvItem α → Option String
  | .errObj m => m
  | _ => none

/-- The `pages` property read off the element at index 0 of the envelope
(`paginationInfo.pages` in `getCompleteList`): defined only when that
element is a pagination object; `undefined` (here `none`) otherwise, in
which case the JS comparison `currentPage >= undefined` is false. -/
def itemPages : EnvItem α → Option Nat
  | .meta p => some p.pages
  | _ => none

/-- The payload read off the element at index 1 of the envelope
(`response[1] as T[]` in `getCompleteList`).  A non-array element in
payload position would be appended by the source as a single untyped
element; that type-confused case is outside every claim and unreachable for
a well-formed upstream, and the typed model reads no records from it. -/
def itemRecords : EnvItem α → List α
  | .records xs => xs
  | _ => []

/-- JS truthiness of the value of the `message` field: `none` models an
absent (`undefined`) field, and the empty string models a falsy field
value, both of which fail the `firstItem.message` test in the source. -/
def truthyMessage : Option String → Bool
  | some m => m ≠ ""
  | none => false

/-- Embeds `makeWorldBankRequest` (src/index.ts lines 55-132): a thrown
axios error is caught and becomes `none`; an empty array body becomes
`none`; an array body whose first element is truthy and carries a truthy
`message` field becomes `none`; any other body is returned as-is. -/
def makeWorldBankRequest (o : HttpOutcome α) : Option (HttpBody α) :=
  match o with
  | .thrown => none
  | .ok .object => some .object
  | .ok (.array []) => none
  | .ok (.array (firstItem :: rest)) =>
    if itemTruthy firstItem && truthyMessage (itemMessage firstItem) then none
    else some (.array (firstItem :: rest))

/-- Embeds the `while (currentPage <= maxPages)` loop of `getCompleteList`
(src/index.ts lines 144-169).  `fuel` is the number of loop iterations the
guard still permits, i.e. `maxPages - currentPage + 1`; the top-level entry
starts with `fuel = maxPages` and `currentPage = 1`, so `fuel > 0` holds
exactly when `currentPage <= maxPages`.  Alongside the accumulator the
function records the list of page numbers requested, in order. -/
def getCompleteListGo (upstream : Nat → Nat → HttpOutcome α) (perPage : Nat) :
    Nat → Nat → List α → List Nat → List α × List Nat
  | 0, _, acc, reqs => (acc, reqs)
  | fuel + 1, currentPage, acc, reqs =>
    let reqs' := reqs ++ [currentPage]
    match makeWorldBankRequest (upstream currentPage perPage) with
    | none => (acc, reqs')
    | some .object => (acc, reqs')
    | some (.array items) =>
      match items with
      | a :: b :: _ =>
        let acc' := acc ++ itemRecords b
        match itemPages a with
        | some pgs =>
          if pgs ≤ currentPage then (acc', reqs')
          else getCompleteListGo upstream perPage fuel (currentPage + 1) acc' reqs'
        | none => getCompleteListGo upstream perPage fuel (currentPage + 1) acc' reqs'
      | _ => (acc, reqs')

/-- Embeds `getCompleteList` (src/index.ts lines 135-175): drive
`makeWorldBankRequest` from page 1 while the page counter stays within
`maxPages`, concatenating each well-formed envelope payload, and breaking
on the null sentinel, a non-array response, an envelope of fewer than two
elements, or a declared total-pages the counter has reached.  Returns the
accumulated data together with the pages requested. -/
def getCompleteList (upstream : Nat → Nat → HttpOutcome α)
    (maxPages : Nat := 20) (perPage : Nat := 100) : List α × List Nat :=
  getCompleteListGo upstream perPage maxPages 1 [] []

/-- The retention test of `getCountries` (src/index.ts line 187): keep a
record only when its region value is not the aggregate marker and its id is
exactly three characters long. -/
def countryKeep (country : Country) : Bool :=
  country.region.value ≠ "Aggregates" && country.id.length == 3

/-- Embeds `getCountries` (src/index.ts lines 178-193) with the
`COUNTRIES_CACHE` module variable made explicit: the argument `cache` is
the variable on entry, the middle component of the result is the variable
on exit, and the last component is the list of pages requested upstream. -/
def getCountries (upstream : Nat → Nat → HttpOutcome Country)
    (cache : List Country) : List Country × List Country × List Nat :=
  if cache.length > 0 then (cache, cache, [])
  else
    let fetched := getCompleteList upstream 5 100
    if fetched.1.length > 0 then
      let filtered := fetched.1.filter countryKeep
      (filtered, filtered, fetched.2)
    else ([], cache, fetched.2)

/-- Embeds `getIndicators` (src/index.ts lines 196-210) with the
`INDICATORS_CACHE` module variable made explicit, in the same shape as
`getCountries` (no post-filtering, page bound 10, page size 50). -/
def getIndicators (upstream : Nat → Nat → HttpOutcome Indicator)
    (cache : List Indicator) : List Indicator × List Indicator × List Nat :=
  if cache.length > 0 then (cache, cache, [])
  else
    let fetched := getCompleteList upstream 10 50
    if fetched.1.length > 0 then (fetched.1, fetched.1, fetched.2)
    else ([], cache, fetched.2)

/-- Embeds `getCountryData` (src/index.ts lines 213-224): one
non-paginated request against the per-country-per-indicator endpoint; when
the normalized response is an array whose index-1 element is itself an
array, return its records with the null-valued observations filtered out;
otherwise return the empty list.  The `upstream` argument maps the request
parameters (country code, indicator id, `per_page = years`) to the outcome
of the single HTTP request the function issues. -/
def getCountryData (upstream : String → String → Nat → HttpOutcome DataPoint)
    (countryCode indicatorId : String) (years : Nat := 10) : List DataPoint :=
  match makeWorldBankRequest (upstream countryCode indicatorId years) with
  | some (.array items) =>
    match items.get? 1 with
    | some (.records pts) => pts.filter (fun point => point.value.isSome)
    | _ => []
  | _ => []

/-- The `COMMON_INDICATORS` table (src/index.ts lines 14-48) as an entry
list in source order; JS object-key lookup and `Object.entries` both
operate over these entries. -/
def COMMON_INDICATORS : List (String × String) :=
  [("GDP", "NY.GDP.MKTP.CD"),
   ("GDP_GROWTH", "NY.GDP.MKTP.KD.ZG"),
   ("GDP_PER_CAPITA", "NY.GDP.PCAP.CD"),
   ("GNI", "NY.GNP.MKTP.CD"),
   ("GNI_PER_CAPITA", "NY.GNP.PCAP.CD"),
   ("EXPORTS_GDP", "NE.EXP.GNFS.ZS"),
   ("FDI_NET", "BN.KLT.DINV.CD"),
   ("INFLATION", "FP.CPI.TOTL.ZG"),
   ("UNEMPLOYMENT", "SL.UEM.TOTL.ZS"),
   ("POPULATION", "SP.POP.TOTL"),
   ("LIFE_EXPECTANCY", "SP.DYN.LE00.IN"),
   ("BIRTH_RATE", "SP.DYN.CBRT.IN"),
   ("DEATH_RATE", "SP.DYN.CDRT.IN"),
   ("INTERNET_USERS", "IT.NET.USER.ZS"),
   ("LITERACY_RATE", "SE.ADT.LITR.ZS"),
   ("SCHOOL_ENROLLMENT", "SE.PRM.ENRR"),
   ("SCHOOL_COMPLETION", "SE.PRM.CMPT.ZS"),
   ("TEACHERS_PRIMARY", "SE.PRM.TCHR"),
   ("EDUCATION_EXPENDITURE", "SE.XPD.TOTL.GD.ZS"),
   ("HEALTH_EXPENDITURE", "SH.XPD.CHEX.GD.ZS"),
   ("PHYSICIANS", "SH.MED.PHYS.ZS"),
   ("HOSPITAL_BEDS", "SH.MED.BEDS.ZS"),
   ("IMMUNIZATION", "SH.IMM.MEAS"),
   ("HIV_PREVALENCE", "SH.DYN.AIDS.ZS"),
   ("MALNUTRITION", "SH.STA.MALN.ZS"),
   ("TUBERCULOSIS", "SH.TBS.INCD")]

/-- The member names every plain object literal inherits from
`Object.prototype`; property access on `COMMON_INDICATORS` at any of them
yields the inherited member, a truthy non-string value, rather than
`undefined`. -/
def OBJECT_PROTOTYPE_MEMBERS : List String :=
  ["constructor", "hasOwnProperty", "isPrototypeOf", "propertyIsEnumerable",
   "toLocaleString", "toString", "valueOf", "__proto__",
   "__defineGetter__", "__defineSetter__", "__lookupGetter__", "__lookupSetter__"]

/-- The result of a JS property access on the indicator table object: an
own entry of the table (a string value), a member inherited from
`Object.prototype` (a truthy, non-string function or object), or
`undefined` for every other key. -/
inductive JsProp where
  | missing
  | own (value : String)
  | inherited (name : String)
deriving DecidableEq

/-- Embeds the property access `COMMON_INDICATORS[indicatorKey]`
(src/index.ts line 260) with JS object semantics: a key of the table
yields its stored value; a key naming an `Object.prototype` member yields
that inherited member, which is truthy at runtime and therefore passes the
`!indicatorId` guard of the source; any other key yields `undefined`. -/
def lookupIndicator (indicatorKey : String) : JsProp :=
  match COMMON_INDICATORS.find? (fun e => e.1 == indicatorKey) with
  | some e => .own e.2
  | none =>
    if OBJECT_PROTOTYPE_MEMBERS.contains indicatorKey then .inherited indicatorKey
    else .missing

/-- The string produced when an inherited `Object.prototype` member is
interpolated into the endpoint template of `getCountryData`: the standard
source text of the native function members, and the object tag for the
result of the `__proto__` accessor.  Downstream only its opacity matters:
it never equals any table value. -/
def inheritedMemberString (name : String) : String :=
  if name = "__proto__" then "[object Object]"
  else "function " ++ name ++ "() \x7b [native code] \x7d"

/-- JS `String.prototype.toUpperCase`, modelled as the character-wise
upper-casing of the string content (the two agree on the ASCII codes this
program compares). -/
def jsToUpper (s : String) : String :=
  ⟨s.data.map Char.toUpper⟩

/-- JS `String.prototype.toLowerCase`, modelled as the character-wise
lower-casing of the string content. -/
def jsToLower (s : String) : String :=
  ⟨s.data.map Char.toLower⟩

/-- The country lookup shared verbatim by `handleIndicatorData`
(src/index.ts lines 271-273) and the get-country-info tool (lines 348-350):
the first cached record whose stored 2-letter or 3-letter code equals the
upper-cased user input. -/
def findCountry (countries : List Country) (countryCode : String) : Option Country :=
  countries.find? (fun c => c.iso2Code == jsToUpper countryCode || c.id == jsToUpper countryCode)

/-- Embeds `formatCountryInfo` (src/index.ts lines 227-235): the template
literal (leading newline, two-space indentation, trailing newline plus
indent) followed by `.trim()`. -/
def formatCountryInfo (country : Country) : String :=
  ("\n  Country: " ++ country.name ++ " (" ++ country.iso2Code ++ ")" ++
   "\n  Region: " ++ country.region.value ++
   "\n  Income Level: " ++ country.incomeLevel.value ++
   "\n  Capital: " ++ country.capitalCity ++
   "\n  Coordinates: " ++ country.latitude ++ ", " ++ country.longitude ++
   "\n  ").trim

/-- Rendering of one observation value in `formatIndicatorData`
(`point.value?.toLocaleString() || 'N/A'`): a null value renders as N/A.
The locale digit grouping of `toLocaleString` is modelled as plain decimal
notation; no claim depends on the digit rendering. -/
def valueText : Option Int → String
  | some v => toString v
  | none => "N/A"

/-- Embeds `formatIndicatorData` (src/index.ts lines 238-252).  The source
writes the four-character escape sequence backslash-backslash-n inside its
template literals, so the produced text contains two literal backslashes
followed by the letter n, not a newline; the embedding reproduces that. -/
def formatIndicatorData (data : List DataPoint) (indicatorName : String) : String :=
  if data.length = 0 then "No data found for " ++ indicatorName
  else
    data.foldl
      (fun res point =>
        res ++ point.date ++ " | " ++ valueText point.value ++ " | " ++
        (if point.unit = "" then "N/A" else point.unit) ++ "\\\\n")
      (indicatorName ++ " data:\\\\n" ++ "Year | Value | Unit\\\\n" ++ "--- | --- | ---\\\\n")

/-- The indicator display name computed in `handleIndicatorData`
(src/index.ts lines 285-286): the first table key mapping to the resolved
id, falling back to the raw key. -/
def indicatorDisplayName (indicatorId indicatorKey : String) : String :=
  ((COMMON_INDICATORS.find? (fun e => e.2 == indicatorId)).map (fun e => e.1)).getD indicatorKey

/-- Embeds `handleIndicatorData` (src/index.ts lines 255-294), the common
handler behind the four indicator-category tools.  Result components: the
text of the single text block returned, the countries cache on exit, and
the number of HTTP requests issued (page fetches by `getCountries` plus the
single observation fetch when it is reached).  The `!indicatorId` guard is
a falsiness test: it fires on `undefined` (and would fire on an empty-string
table value, a case the concrete table never produces), but an inherited
`Object.prototype` member is truthy and proceeds; in that branch the strict
comparison `id === indicatorId` of the display-name search is between a
string and a non-string, always false, so the raw key is displayed, and the
member is string-interpolated into the observation endpoint. -/
def handleIndicatorData (countryUpstream : Nat → Nat → HttpOutcome Country)
    (dataUpstream : String → String → Nat → HttpOutcome DataPoint)
    (cache : List Country) (countryCode indicatorKey : String) (years : Nat) :
    String × List Country × Nat :=
  match lookupIndicator indicatorKey with
  | .missing => ("Error: Unsupported indicator type", cache, 0)
  | .own indicatorId =>
    if indicatorId = "" then ("Error: Unsupported indicator type", cache, 0)
    else
      let r := getCountries countryUpstream cache
      match findCountry r.1 countryCode with
      | none => ("Error: Country not found", r.2.1, r.2.2.length)
      | some country =>
        let data := getCountryData dataUpstream country.id indicatorId years
        (formatIndicatorData data (country.name ++ " - " ++ indicatorDisplayName indicatorId indicatorKey),
         r.2.1, r.2.2.length + 1)
  | .inherited name =>
    let r := getCountries countryUpstream cache
    match findCountry r.1 countryCode with
    | none => ("Error: Country not found", r.2.1, r.2.2.length)
    | some country =>
      let data := getCountryData dataUpstream country.id (inheritedMemberString name) years
      (formatIndicatorData data (country.name ++ " - " ++ indicatorKey),
       r.2.1, r.2.2.length + 1)

/-- JS `String.prototype.includes`: substring containment. -/
def jsIncludes (s pat : String) : Bool :=
  decide (pat.data <:+: s.data)

/-- The guard `arg && arg.trim() !== ''` applied to the optional filter
arguments of the get-countries tool: an absent argument (`none`), the empty
string (falsy in JS), and a whitespace-only string all leave the filter
inactive. -/
def filterActive : Option String → Bool
  | none => false
  | some s => s ≠ "" && s.trim ≠ ""

/-- Embeds the filtering steps of the get-countries tool handler
(src/index.ts lines 315-324): when active, the region filter keeps the
countries whose region value contains the argument as a substring, and the
income-level filter then does the same over the income-level value. -/
def getCountriesToolSelect (countries : List Country)
    (region incomeLevel : Option String) : List Country :=
  let filtered1 :=
    if filterActive region then
      countries.filter (fun c => jsIncludes c.region.value (region.getD ""))
    else countries
  if filterActive incomeLevel then
    filtered1.filter (fun c => jsIncludes c.incomeLevel.value (incomeLevel.getD ""))
  else filtered1

/-- Embeds the get-countries tool handler (src/index.ts lines 315-336):
resolve the cache, apply the optional filters, and render one line per
country joined by the two-character separator backslash-n the source writes
(`join('\\n')` with an escaped backslash).  Also returns the cache on
exit. -/
def getCountriesTool (countryUpstream : Nat → Nat → HttpOutcome Country)
    (cache : List Country) (region incomeLevel : Option String) :
    String × List Country :=
  let r := getCountries countryUpstream cache
  let filtered := getCountriesToolSelect r.1 region incomeLevel
  let result := String.intercalate "\\n"
    (filtered.map (fun c =>
      c.name ++ " (" ++ c.iso2Code ++ ") - " ++ c.region.value ++ " - " ++ c.incomeLevel.value))
  (if result = "" then "No countries found matching the criteria" else result, r.2.1)

/-- Embeds the get-country-info tool handler (src/index.ts lines 346-367):
resolve the cache, look the code up, and render either the country summary
or the not-found message. -/
def getCountryInfoTool (countryUpstream : Nat → Nat → HttpOutcome Country)
    (cache : List Country) (countryCode : String) : String × List Country :=
  let r := getCountries countryUpstream cache
  match findCountry r.1 countryCode with
  | none => ("Error: Country not found", r.2.1)
  | some country => (formatCountryInfo country, r.2.1)

/-- The match predicate of the search-indicators tool (src/index.ts lines
379-381): the lower-cased name or the lower-cased id contains the
lower-cased keyword. -/
def indicatorMatches (keyword : String) (indicator : Indicator) : Bool :=
  jsIncludes (jsToLower indicator.name) (jsToLower keyword) ||
  jsIncludes (jsToLower indicator.id) (jsToLower keyword)

/-- The selection step of the search-indicators tool (src/index.ts lines
379-382): the matching indicators truncated by `slice(0, 20)` before any
formatting happens. -/
def searchIndicatorsSelect (indicators : List Indicator) (keyword : String) : List Indicator :=
  (indicators.filter (indicatorMatches keyword)).take 20

/-- Embeds the rendering of the search-indicators tool (src/index.ts lines
384-403): the no-match message, or one line per selected indicator (unit
falling back to N/A) joined by the two-character separator the source
writes. -/
def searchIndicatorsText (indicators : List Indicator) (keyword : String) : String :=
  let fi := searchIndicatorsSelect indicators keyword
  if fi.length = 0 then "No related indicators found"
  else
    String.intercalate "\\n"
      (fi.map (fun i =>
        i.id ++ ": " ++ i.name ++ " (" ++ (if i.unit = "" then "N/A" else i.unit) ++ ")"))

/-- Embeds the search-indicators tool handler end to end (src/index.ts
lines 377-403), threading the indicators cache. -/
def searchIndicatorsTool (indicatorUpstream : Nat → Nat → HttpOutcome Indicator)
    (cache : List Indicator) (keyword : String) : String × List Indicator :=
  let r := getIndicators indicatorUpstream cache
  (searchIndicatorsText r.1 keyword, r.2.1)

/-- An upstream that serves a clean N-page response sequence: page `p` with
`1 ≤ p ≤ N` answers with the well-formed envelope declaring `pages = N` and
carrying the p-th payload array; any other page answers with an empty JSON
array (the no-data shape). -/
def cleanUpstream (pagesData : List (List α)) (total : Nat) :
    Nat → Nat → HttpOutcome α :=
  fun page perPage =>
    if h : 1 ≤ page ∧ page ≤ pagesData.length then
      .ok (.array [.meta ⟨page, pagesData.length, perPage, total, ""⟩,
                   .records (pagesData.get ⟨page - 1, by omega⟩)])
    else .ok (.array [])

/-- Concrete fixture: the East Asia and Pacific region record. -/
def regionEAS : Region := ⟨"EAS", "Z4", "East Asia & Pacific"⟩

/-- Concrete fixture: the Europe and Central Asia region record. -/
def regionECS : Region := ⟨"ECS", "Z7", "Europe & Central Asia"⟩

/-- Concrete fixture: the aggregate-region marker record served for
pseudo-countries. -/
def regionAgg : Region := ⟨"NA", "NA", "Aggregates"⟩

/-- Concrete fixture: an upper-middle-income classification record. -/
def incomeUMC : Region := ⟨"UMC", "XT", "Upper middle income"⟩

/-- Concrete fixture: a high-income classification record. -/
def incomeHIC : Region := ⟨"HIC", "XD", "High income"⟩

/-- Concrete fixture: a lending-type classification record. -/
def lendingIBRD : Region := ⟨"IBD", "XF", "IBRD"⟩

/-- Concrete fixture: a real country record with upper-case codes, as the
upstream serves them. -/
def chnCountry : Country :=
  ⟨"CHN", "CN", "China", regionEAS, regionEAS, incomeUMC, lendingIBRD,
   "Beijing", "116.286", "40.0495"⟩

/-- Concrete fixture: a second real country record in a different region
and income bracket. -/
def deuCountry : Country :=
  ⟨"DEU", "DE", "Germany", regionECS, regionECS, incomeHIC, lendingIBRD,
   "Berlin", "13.4115", "52.5235"⟩

/-- Concrete fixture: an aggregate pseudo-country record the retention
filter must drop. -/
def aggWorld : Country :=
  ⟨"WLD", "1W", "World", regionAgg, regionAgg, regionAgg, regionAgg,
   "", "", ""⟩

/-- Concrete fixture: a country record whose stored codes are lower case. -/
def lcCountry : Country :=
  ⟨"chn", "cn", "China", regionEAS, regionEAS, incomeUMC, lendingIBRD,
   "Beijing", "116.286", "40.0495"⟩

/-- Concrete fixture: pagination metadata declaring a single page. -/
def pagEx : Pagination := ⟨1, 1, 10, 2, "2025-01-28"⟩

/-- Concrete fixture: an observation carrying a value. -/
def gdpPoint : DataPoint :=
  ⟨⟨"NY.GDP.MKTP.CD", "GDP"⟩, ⟨"CN", "China"⟩, "CHN", "2023",
   some 17794782000000, "", "", 0⟩

/-- Concrete fixture: an observation whose value is null. -/
def gdpNullPoint : DataPoint :=
  ⟨⟨"NY.GDP.MKTP.CD", "GDP"⟩, ⟨"CN", "China"⟩, "CHN", "2024",
   none, "", "", 0⟩

/-- Concrete fixture: a country upstream serving one page holding one real
country and one aggregate pseudo-country. -/
def countryUpstreamEx : Nat → Nat → HttpOutcome Country :=
  fun page perPage =>
    if page = 1 then
      .ok (.array [.meta ⟨1, 1, perPage, 2, "2025-01-28"⟩,
                   .records [chnCountry, aggWorld]])
    else .ok (.array [])

/-- Concrete fixture: an upstream answering every request with an empty
JSON array, the no-data shape. -/
def emptyUpstream (α : Type) : Nat → Nat → HttpOutcome α :=
  fun _ _ => .ok (.array [])

/-- Concrete fixture: an observation upstream serving one well-formed
envelope with one valued and one null observation. -/
def dataUpstreamEx : String → String → Nat → HttpOutcome DataPoint :=
  fun _ _ _ => .ok (.array [.meta pagEx, .records [gdpPoint, gdpNullPoint]])

/-- Concrete fixture: an observation upstream answering with an error
envelope whose message field is non-empty. -/
def dataUpstreamErr : String → String → Nat → HttpOutcome DataPoint :=
  fun _ _ _ => .ok (.array [.errObj (some "Invalid format")])

/-- Concrete fixture: a small indicator record matching the keyword used
in the search witness. -/
def eduIndicator : Indicator :=
  ⟨"EDU", "edu", "", ⟨"2", "WDI"⟩, "", "", []⟩

/-- Helper: a search with a predicate that the distinguished member
satisfies, and that nothing else in the list satisfies, returns exactly
that member. -/
theorem find?_eq_some_of_unique {α : Type} (p : α → Bool) (l : List α) (c : α)
    (hmem : c ∈ l) (hc : p c = true)
    (huniq : ∀ x ∈ l, p x = true → x = c) : l.find? p = some c := by
  induction l with
  | nil => cases hmem
  | cons x xs ih =>
    cases hp : p x with
    | true =>
      rw [List.find?_cons_of_pos _ hp]
      rw [huniq x (List.mem_cons_self x xs) hp]
    | false =>
      rw [List.find?_cons_of_neg _ (by simp [hp])]
      have hmem' : c ∈ xs := by
        cases List.mem_cons.mp hmem with
        | inl h => subst h; rw [hc] at hp; cases hp
        | inr h => exact h
      exact ih hmem' (fun x hx hpx => huniq x (List.mem_cons_of_mem _ hx) hpx)

/-- Helper: the retention predicate of `getCountries`, unfolded to its two
conditions. -/
theorem countryKeep_iff (c : Country) :
    countryKeep c = true ↔ c.region.value ≠ "Aggregates" ∧ c.id.length = 3 := by
  simp [countryKeep]

/-- C7 counterexample: toString is not a key of the fixed indicator table,
yet at that key the handler does not return the unsupported-indicator
literal and does reach the country-cache fetch (one request is issued on a
cold cache), because property access on the object literal finds the
truthy `Object.prototype` member and the `!indicatorId` guard does not
fire. -/
theorem handleIndicatorData_prototype_key_reaches_network :
    (∀ e ∈ COMMON_INDICATORS, e.1 ≠ "toString") ∧
    (handleIndicatorData countryUpstreamEx dataUpstreamEx [] "ZZ" "toString" 10).1
      ≠ "Error: Unsupported indicator type" ∧
    (handleIndicatorData countryUpstreamEx dataUpstreamEx [] "ZZ" "toString" 10).2.2 ≠ 0 := by
  refine ⟨by decide, by decide, by decide⟩

/-- C7 (amended): a request to an indicator-category tool with an
indicator key that is neither a key of the fixed `COMMON_INDICATORS` table
nor the name of a member inherited from `Object.prototype` returns the
literal text Error: Unsupported indicator type, leaves the countries cache
untouched, and performs zero network calls. -/
theorem handleIndicatorData_unsupported
    (countryUpstream : Nat → Nat → HttpOutcome Country)
    (dataUpstream : String → String → Nat → HttpOutcome DataPoint)
    (cache : List Country) (countryCode indicatorKey : String) (years : Nat)
    (htable : ∀ e ∈ COMMON_INDICATORS, e.1 ≠ indicatorKey)
    (hproto : indicatorKey ∉ OBJECT_PROTOTYPE_MEMBERS) :
    handleIndicatorData countryUpstream dataUpstream cache countryCode indicatorKey years
      = ("Error: Unsupported indicator type", cache, 0) := by
  have hfind : COMMON_INDICATORS.find? (fun e => e.1 == indicatorKey) = none := by
    rw [List.find?_eq_none]
    intro e he
    simpa using htable e he
  have hmiss : lookupIndicator indicatorKey = .missing := by
    unfold lookupIndicator
    rw [hfind]
    simp [hproto]
  unfold handleIndicatorData
  rw [hmiss]

/-- Witness for C7 (amended) at the key CO2_EMISSIONS, which is neither in
the table nor inherited. -/
theorem handleIndicatorData_unsupported_witness :
    (∀ e ∈ COMMON_INDICATORS, e.1 ≠ "CO2_EMISSIONS") ∧
    "CO2_EMISSIONS" ∉ OBJECT_PROTOTYPE_MEMBERS ∧
    handleIndicatorData countryUpstreamEx dataUpstreamEx [] "CN" "CO2_EMISSIONS" 10
      = ("Error: Unsupported indicator type", [], 0) :=
  ⟨by decide, by decide,
   handleIndicatorData_unsupported countryUpstreamEx dataUpstreamEx [] "CN" "CO2_EMISSIONS" 10
     (by decide) (by decide)⟩

/-- C3: provided every record already in the countries cache satisfies the
invariant, every record in the collection returned by `getCountries` and
every record in the cache it leaves behind has a region value other than
Aggregates and an identifier of exactly three characters. -/
theorem getCountries_no_aggregates (upstream : Nat → Nat → HttpOutcome Country)
    (cache : List Country)
    (hcache : ∀ c ∈ cache, c.region.value ≠ "Aggregates" ∧ c.id.length = 3) :
    (∀ c ∈ (getCountries upstream cache).1, c.region.value ≠ "Aggregates" ∧ c.id.length = 3) ∧
    (∀ c ∈ (getCountries upstream cache).2.1, c.region.value ≠ "Aggregates" ∧ c.id.length = 3) := by
  unfold getCountries
  split
  · exact ⟨hcache, hcache⟩
  · dsimp only
    split
    · constructor <;>
        · intro c hc
          simp only [List.mem_filter] at hc
          exact (countryKeep_iff c).mp hc.2
    · constructor
      · intro c hc
        simp at hc
      · exact hcache

/-- Witness for C3 starting from the empty cache with an upstream serving
one real country and one aggregate. -/
theorem getCountries_no_aggregates_witness :
    (∀ c ∈ (getCountries countryUpstreamEx []).1, c.region.value ≠ "Aggregates" ∧ c.id.length = 3) ∧
    (∀ c ∈ (getCountries countryUpstreamEx []).2.1, c.region.value ≠ "Aggregates" ∧ c.id.length = 3) :=
  getCountries_no_aggregates countryUpstreamEx [] (by simp)

/-- C4: no observation returned by `getCountryData` carries a null value,
and on a well-formed envelope the result is exactly the upstream payload
with the null-valued observations filtered out, kept in upstream order (a
sublist of the payload, no re-sorting). -/
theorem getCountryData_filters_null
    (upstream : String → String → Nat → HttpOutcome DataPoint)
    (countryCode indicatorId : String) (years : Nat) :
    (∀ p ∈ getCountryData upstream countryCode indicatorId years, p.value ≠ none) ∧
    (∀ (pg : Pagination) (pts : List DataPoint) (rest : List (EnvItem DataPoint)),
      upstream countryCode indicatorId years = .ok (.array (.meta pg :: .records pts :: rest)) →
      getCountryData upstream countryCode indicatorId years
        = pts.filter (fun point => point.value.isSome) ∧
      List.Sublist (getCountryData upstream countryCode indicatorId years) pts) := by
  constructor
  · intro p hp
    unfold getCountryData at hp
    split at hp
    · split at hp
      · simp only [List.mem_filter] at hp
        exact Option.ne_none_iff_isSome.mpr hp.2
      · cases hp
    · cases hp
  · intro pg pts rest h
    have hreq : makeWorldBankRequest (upstream countryCode indicatorId years)
        = some (.array (.meta pg :: .records pts :: rest)) := by
      rw [h]
      rfl
    have hdata : getCountryData upstream countryCode indicatorId years
        = pts.filter (fun point => point.value.isSome) := by
      unfold getCountryData
      rw [hreq]
      rfl
    exact ⟨hdata, by rw [hdata]; exact List.filter_sublist pts⟩

/-- Witness for C4 on an upstream serving one valued and one null
observation. -/
theorem getCountryData_filters_null_witness :
    getCountryData dataUpstreamEx "CHN" "NY.GDP.MKTP.CD" 10
      = [gdpPoint, gdpNullPoint].filter (fun point => point.value.isSome) ∧
    List.Sublist (getCountryData dataUpstreamEx "CHN" "NY.GDP.MKTP.CD" 10)
      [gdpPoint, gdpNullPoint] :=
  (getCountryData_filters_null dataUpstreamEx "CHN" "NY.GDP.MKTP.CD" 10).2
    pagEx [gdpPoint, gdpNullPoint] [] rfl

/-- C2 counterexample: a response body that is a JSON array whose first
element carries a message field with the empty string as value is passed
through by `makeWorldBankRequest` rather than turned into the no-data
sentinel, because the source tests the field with JS truthiness and the
empty string is falsy. -/
theorem makeWorldBankRequest_emptyMessage_passthrough :
    itemMessage (EnvItem.errObj (α := DataPoint) (some "")) = some "" ∧
    makeWorldBankRequest (HttpOutcome.ok (.array [EnvItem.errObj (α := DataPoint) (some "")]))
      = some (.array [EnvItem.errObj (some "")]) ∧
    makeWorldBankRequest (HttpOutcome.ok (.array [EnvItem.errObj (α := DataPoint) (some "")]))
      ≠ none := by
  refine ⟨rfl, rfl, ?_⟩
  decide

/-- C2 (amended): for every response body that is an empty JSON array, or
a JSON array whose first element carries a message field with a truthy
(non-empty) value, `makeWorldBankRequest` returns the no-data sentinel
rather than the body, no exception propagates (the function is total and a
thrown transport error also maps to the sentinel), and a caller such as
`getCountryData` degrades to an empty result. -/
theorem makeWorldBankRequest_noData (first : EnvItem DataPoint)
    (rest : List (EnvItem DataPoint)) (m : String)
    (hmsg : itemMessage first = some m) (hm : m ≠ "")
    (du : String → String → Nat → HttpOutcome DataPoint)
    (code ind : String) (years : Nat)
    (hbody : du code ind years = .ok (.array []) ∨
             du code ind years = .ok (.array (first :: rest))) :
    makeWorldBankRequest (HttpOutcome.ok (HttpBody.array ([] : List (EnvItem DataPoint)))) = none ∧
    makeWorldBankRequest (HttpOutcome.ok (.array (first :: rest))) = none ∧
    makeWorldBankRequest (HttpOutcome.thrown (α := DataPoint)) = none ∧
    getCountryData du code ind years = [] := by
  have hfirst : first = EnvItem.errObj (some m) := by
    cases first with
    | jnull => cases hmsg
    | errObj mm => cases hmsg; rfl
    | meta p => cases hmsg
    | records xs => cases hmsg
  have hnone : makeWorldBankRequest (HttpOutcome.ok (.array (first :: rest))) = none := by
    subst hfirst
    unfold makeWorldBankRequest
    simp [itemTruthy, itemMessage, truthyMessage, hm]
  refine ⟨rfl, hnone, rfl, ?_⟩
  unfold getCountryData
  cases hbody with
  | inl h => rw [h]; rfl
  | inr h => rw [h, hnone]

/-- Witness for C2 (amended) on an error envelope with a non-empty
message. -/
theorem makeWorldBankRequest_noData_witness :
    makeWorldBankRequest (HttpOutcome.ok (HttpBody.array ([] : List (EnvItem DataPoint)))) = none ∧
    makeWorldBankRequest (HttpOutcome.ok (.array [EnvItem.errObj (α := DataPoint) (some "Invalid format")])) = none ∧
    makeWorldBankRequest (HttpOutcome.thrown (α := DataPoint)) = none ∧
    getCountryData dataUpstreamErr "CN" "NY.GDP.MKTP.CD" 10 = [] :=
  makeWorldBankRequest_noData (EnvItem.errObj (some "Invalid format")) [] "Invalid format"
    rfl (by decide) dataUpstreamErr "CN" "NY.GDP.MKTP.CD" 10 (Or.inr rfl)

/-- C8 counterexample: at a concrete input whose country code matches no
cached record, the handler returns the text Error: Country not found with
no trailing period, which differs from the literal the claim states. -/
theorem handleIndicatorData_notFound_literal :
    (handleIndicatorData countryUpstreamEx dataUpstreamEx [chnCountry] "ZZ" "GDP" 10).1
      = "Error: Country not found" ∧
    "Error: Country not found" ≠ "Error: Country not found." := by
  refine ⟨?_, by decide⟩
  rfl

/-- C8 (amended): for every country code that matches no record in the
resolved country collection under the lookup, and every recognized
indicator key, the handler behind the indicator-data tools returns the
literal text Error: Country not found (no trailing period) as the tool
result rather than raising an error. -/
theorem handleIndicatorData_country_not_found
    (countryUpstream : Nat → Nat → HttpOutcome Country)
    (dataUpstream : String → String → Nat → HttpOutcome DataPoint)
    (cache : List Country) (countryCode indicatorKey : String) (years : Nat)
    (indicatorId : String)
    (hkey : lookupIndicator indicatorKey = .own indicatorId)
    (hne : indicatorId ≠ "")
    (hfind : findCountry (getCountries countryUpstream cache).1 countryCode = none) :
    (handleIndicatorData countryUpstream dataUpstream cache countryCode indicatorKey years).1
      = "Error: Country not found" := by
  unfold handleIndicatorData
  rw [hkey]
  dsimp only
  rw [if_neg hne]
  rw [hfind]

/-- Witness for C8 (amended) at country code ZZ against a cache holding
one country. -/
theorem handleIndicatorData_country_not_found_witness :
    (handleIndicatorData countryUpstreamEx dataUpstreamEx [chnCountry] "ZZ" "GDP" 10).1
      = "Error: Country not found" :=
  handleIndicatorData_country_not_found countryUpstreamEx dataUpstreamEx [chnCountry]
    "ZZ" "GDP" 10 "NY.GDP.MKTP.CD" (by decide) (by decide) (by decide)

/-- C5 counterexample: a cached record whose stored codes are lower case
is not found even when the user supplies exactly the stored 2-letter code,
because the source upper-cases only the user input before an exact
comparison. -/
theorem findCountry_lowercase_miss :
    lcCountry ∈ [lcCountry] ∧
    lcCountry.iso2Code = "cn" ∧
    findCountry [lcCountry] "cn" = none := by
  refine ⟨by decide, rfl, ?_⟩
  decide

/-- C5 (amended): for every country record in the cache whose stored
2-letter and 3-letter codes are upper case (as the upstream serves them),
and every user-supplied code equal to one of them up to letter case, the
lookup returns a record, namely that record whenever it is the only one
bearing the code; so the lookup is case-insensitive in the user input. -/
theorem findCountry_case_insensitive (countries : List Country) (c : Country)
    (code : String)
    (hmem : c ∈ countries)
    (h2 : jsToUpper c.iso2Code = c.iso2Code) (h3 : jsToUpper c.id = c.id)
    (hmatch : jsToUpper code = jsToUpper c.iso2Code ∨ jsToUpper code = jsToUpper c.id)
    (huniq : ∀ c' ∈ countries,
      (c'.iso2Code = jsToUpper code ∨ c'.id = jsToUpper code) → c' = c) :
    findCountry countries code = some c := by
  unfold findCountry
  apply find?_eq_some_of_unique _ _ _ hmem
  · rcases hmatch with h | h
    · rw [h2] at h
      simp [h]
    · rw [h3] at h
      simp [h]
  · intro x hx hpx
    apply huniq x hx
    simpa using hpx

/-- Witness for C5 (amended): the lower-case user input cn finds the
upper-case record of China. -/
theorem findCountry_case_insensitive_witness :
    findCountry [chnCountry, deuCountry] "cn" = some chnCountry :=
  findCountry_case_insensitive [chnCountry, deuCountry] chnCountry "cn"
    (by decide) (by decide) (by decide) (Or.inl (by decide)) (by decide)

/-- C9: the search-indicators tool truncates the matching indicators to
the first twenty before formatting: the selected list never exceeds twenty
entries, every selected entry matches the keyword, the selection is an
initial segment of the full match list, and as soon as at least twenty
indicators match, exactly twenty are selected. -/
theorem searchIndicators_limit (indicators : List Indicator) (keyword : String) :
    (searchIndicatorsSelect indicators keyword).length ≤ 20 ∧
    (∀ i ∈ searchIndicatorsSelect indicators keyword, indicatorMatches keyword i = true) ∧
    searchIndicatorsSelect indicators keyword <+: indicators.filter (indicatorMatches keyword) ∧
    (20 ≤ (indicators.filter (indicatorMatches keyword)).length →
      (searchIndicatorsSelect indicators keyword).length = 20) := by
  refine ⟨?_, ?_, ?_, ?_⟩
  · simp [searchIndicatorsSelect]
  · intro i hi
    unfold searchIndicatorsSelect at hi
    have hi' : i ∈ indicators.filter (indicatorMatches keyword) := List.take_subset _ _ hi
    exact (List.mem_filter.mp hi').2
  · exact List.take_prefix 20 _
  · intro h
    simp [searchIndicatorsSelect, List.length_take]
    omega

/-- Witness for C9 on a catalog of twenty-one matching indicators. -/
theorem searchIndicators_limit_witness :
    (searchIndicatorsSelect (List.replicate 21 eduIndicator) "edu").length = 20 ∧
    (searchIndicatorsSelect (List.replicate 21 eduIndicator) "edu").length ≤ 20 :=
  ⟨(searchIndicators_limit (List.replicate 21 eduIndicator) "edu").2.2.2 (by decide),
   (searchIndicators_limit (List.replicate 21 eduIndicator) "edu").1⟩

/-- C10: the get-countries tool filters by substring containment, and an
absent, empty, or whitespace-only filter argument filters nothing: a
country is selected exactly when it is in the resolved collection and each
active filter argument occurs as a substring of the corresponding
classification value; when neither filter is active the collection passes
through unchanged. -/
theorem getCountriesTool_filter_semantics (countries : List Country)
    (region incomeLevel : Option String) :
    (∀ c, c ∈ getCountriesToolSelect countries region incomeLevel ↔
      c ∈ countries ∧
      (filterActive region = true → jsIncludes c.region.value (region.getD "") = true) ∧
      (filterActive incomeLevel = true → jsIncludes c.incomeLevel.value (incomeLevel.getD "") = true)) ∧
    (filterActive region = false → filterActive incomeLevel = false →
      getCountriesToolSelect countries region incomeLevel = countries) := by
  constructor
  · intro c
    unfold getCountriesToolSelect
    cases hr : filterActive region <;> cases hi : filterActive incomeLevel <;>
      (simp [hr, hi, List.mem_filter, and_assoc]; try tauto)
  · intro hr hi
    unfold getCountriesToolSelect
    rw [hr, hi]
    rfl

/-- Witness for C10: no filtering with inactive arguments, and a substring
(non-equal) region argument selecting China. -/
theorem getCountriesTool_filter_semantics_witness :
    getCountriesToolSelect [chnCountry, deuCountry] none none = [chnCountry, deuCountry] ∧
    chnCountry ∈ getCountriesToolSelect [chnCountry, deuCountry] (some "East Asia") (some "Upper middle") ∧
    "East Asia" ≠ chnCountry.region.value :=
  ⟨(getCountriesTool_filter_semantics [chnCountry, deuCountry] none none).2 (by decide) (by decide),
   ((getCountriesTool_filter_semantics [chnCountry, deuCountry]
      (some "East Asia") (some "Upper middle")).1 chnCountry).mpr
     ⟨by decide, fun _ => by decide, fun _ => by decide⟩,
   by decide⟩

/-- Helper: on an in-range page, the fetch primitive passes the clean
upstream envelope through unchanged. -/
theorem cleanUpstream_fetch (pagesData : List (List α)) (total perPage p : Nat)
    (h1 : 1 ≤ p) (h2 : p ≤ pagesData.length) :
    makeWorldBankRequest (cleanUpstream pagesData total p perPage) =
      some (.array [.meta ⟨p, pagesData.length, perPage, total, ""⟩,
                    .records (pagesData.get ⟨p - 1, by omega⟩)]) := by
  unfold cleanUpstream
  rw [dif_pos ⟨h1, h2⟩]
  rfl

/-- Helper: loop invariant of the aggregation loop over a clean N-page
upstream.  Entering the loop at page `p` within both the declared page
count and the safety ceiling, with fuel matching the remaining permitted
iterations, appends the payloads of pages `p` through `min N maxPages` to
the accumulator and requests exactly those pages in ascending order. -/
theorem getCompleteListGo_clean (pagesData : List (List α)) (total perPage maxPages : Nat) :
    ∀ (fuel p : Nat) (acc : List α) (reqs : List Nat),
      1 ≤ p → p ≤ min pagesData.length maxPages → fuel = maxPages + 1 - p →
      getCompleteListGo (cleanUpstream pagesData total) perPage fuel p acc reqs =
        (acc ++ ((pagesData.drop (p - 1)).take (min pagesData.length maxPages + 1 - p)).flatten,
         reqs ++ List.range' p (min pagesData.length maxPages + 1 - p)) := by
  intro fuel
  induction fuel with
  | zero =>
    intro p acc reqs h1 h2 hf
    omega
  | succ fuel ih =>
    intro p acc reqs h1 h2 hf
    have hpN : p ≤ pagesData.length := by omega
    have hlt : p - 1 < pagesData.length := by omega
    rw [getCompleteListGo]
    rw [cleanUpstream_fetch pagesData total perPage p h1 hpN]
    simp only [itemPages, itemRecords]
    have htake : (pagesData.drop (p - 1)).take 1 = [pagesData.get ⟨p - 1, hlt⟩] := by
      rw [List.drop_eq_getElem_cons hlt]
      rfl
    have hr1 : List.range' p 1 = [p] := rfl
    by_cases hN : pagesData.length ≤ p
    · rw [if_pos hN]
      have hone : min pagesData.length maxPages + 1 - p = 1 := by omega
      rw [hone, htake, hr1]
      simp
    · rw [if_neg hN]
      by_cases hK : p + 1 ≤ min pagesData.length maxPages
      · rw [ih (p + 1) _ _ (by omega) hK (by omega)]
        have hsucc : min pagesData.length maxPages + 1 - p =
            (min pagesData.length maxPages + 1 - (p + 1)) + 1 := by omega
        rw [hsucc]
        rw [List.drop_eq_getElem_cons hlt]
        have hdrop : p - 1 + 1 = p := by omega
        rw [hdrop]
        simp [List.range'_succ, List.get_eq_getElem, List.append_assoc]
      · have hf0 : fuel = 0 := by omega
        subst hf0
        rw [getCompleteListGo]
        have hone : min pagesData.length maxPages + 1 - p = 1 := by omega
        rw [hone, htake, hr1]
        simp

/-- C1: against an upstream serving a clean sequence of N pages (each
declaring N total pages in its pagination metadata, N at least 1), the
aggregator returns the concatenation of the page payload arrays in
ascending page order starting at page 1, requests exactly pages 1 through
`min N maxPages` in that order, and hence issues at most `min N maxPages`
fetch requests. -/
theorem getCompleteList_paginates (pagesData : List (List α)) (total perPage maxPages : Nat)
    (hN : 1 ≤ pagesData.length) :
    getCompleteList (cleanUpstream pagesData total) maxPages perPage =
      ((pagesData.take (min pagesData.length maxPages)).flatten,
       List.range' 1 (min pagesData.length maxPages)) ∧
    (getCompleteList (cleanUpstream pagesData total) maxPages perPage).2.length
      ≤ min pagesData.length maxPages := by
  have hmain : getCompleteList (cleanUpstream pagesData total) maxPages perPage =
      ((pagesData.take (min pagesData.length maxPages)).flatten,
       List.range' 1 (min pagesData.length maxPages)) := by
    unfold getCompleteList
    by_cases hm : 1 ≤ maxPages
    · rw [getCompleteListGo_clean pagesData total perPage maxPages maxPages 1 [] []
        le_rfl (by omega) (by omega)]
      have h1 : min pagesData.length maxPages + 1 - 1 = min pagesData.length maxPages := by
        omega
      simp [h1]
    · have hm0 : maxPages = 0 := by omega
      subst hm0
      rw [getCompleteListGo]
      simp
  refine ⟨hmain, ?_⟩
  rw [hmain]
  simp

/-- Witness for C1 on a three-page upstream under the default ceiling of
twenty pages. -/
theorem getCompleteList_paginates_witness :
    getCompleteList (cleanUpstream ([[10, 20], [30], [40]] : List (List Nat)) 4) 20 100
      = ([10, 20, 30, 40], [1, 2, 3]) ∧
    (getCompleteList (cleanUpstream ([[10, 20], [30], [40]] : List (List Nat)) 4) 20 100).2.length
      ≤ 3 := by
  have h := getCompleteList_paginates ([[10, 20], [30], [40]] : List (List Nat)) 4 100 20
    (by decide)
  refine ⟨by rw [h.1]; decide, le_trans h.2 (by decide)⟩

/-- Helper: the aggregation loop only ever appends to the request log it
is handed. -/
theorem getCompleteListGo_reqs_extend (upstream : Nat → Nat → HttpOutcome α) (perPage : Nat) :
    ∀ (fuel p : Nat) (acc : List α) (reqs : List Nat),
      ∃ t, (getCompleteListGo upstream perPage fuel p acc reqs).2 = reqs ++ t := by
  intro fuel
  induction fuel with
  | zero =>
    intro p acc reqs
    exact ⟨[], by simp [getCompleteListGo]⟩
  | succ fuel ih =>
    intro p acc reqs
    cases hq : makeWorldBankRequest (upstream p perPage) with
    | none => exact ⟨[p], by simp [getCompleteListGo, hq]⟩
    | some body =>
      cases body with
      | object => exact ⟨[p], by simp [getCompleteListGo, hq]⟩
      | array items =>
        rcases items with _ | ⟨a, _ | ⟨b, rest⟩⟩
        · exact ⟨[p], by simp [getCompleteListGo, hq]⟩
        · exact ⟨[p], by simp [getCompleteListGo, hq]⟩
        · cases hpg : itemPages a with
          | none =>
            obtain ⟨t, ht⟩ := ih (p + 1) (acc ++ itemRecords b) (reqs ++ [p])
            exact ⟨p :: t, by simp [getCompleteListGo, hq, hpg, ht]⟩
          | some pgs =>
            by_cases hle : pgs ≤ p
            · exact ⟨[p], by simp [getCompleteListGo, hq, hpg, hle]⟩
            · obtain ⟨t, ht⟩ := ih (p + 1) (acc ++ itemRecords b) (reqs ++ [p])
              exact ⟨p :: t, by simp [getCompleteListGo, hq, hpg, hle, ht]⟩

/-- Helper: with a positive page ceiling the aggregator always requests at
least page 1, whatever the upstream answers. -/
theorem getCompleteList_reqs_nonempty (upstream : Nat → Nat → HttpOutcome α)
    (maxPages perPage : Nat) (hm : 1 ≤ maxPages) :
    (getCompleteList upstream maxPages perPage).2 ≠ [] := by
  unfold getCompleteList
  obtain ⟨fuel, rfl⟩ : ∃ f, maxPages = f + 1 := ⟨maxPages - 1, by omega⟩
  cases hq : makeWorldBankRequest (upstream 1 perPage) with
  | none => simp [getCompleteListGo, hq]
  | some body =>
    cases body with
    | object => simp [getCompleteListGo, hq]
    | array items =>
      rcases items with _ | ⟨a, _ | ⟨b, rest⟩⟩
      · simp [getCompleteListGo, hq]
      · simp [getCompleteListGo, hq]
      · cases hpg : itemPages a with
        | none =>
          obtain ⟨t, ht⟩ :=
            getCompleteListGo_reqs_extend upstream perPage fuel 2 ([] ++ itemRecords b) ([] ++ [1])
          simp only [List.nil_append] at ht
          simp [getCompleteListGo, hq, hpg, ht]
        | some pgs =>
          by_cases hle : pgs ≤ 1
          · simp [getCompleteListGo, hq, hpg, hle]
          · obtain ⟨t, ht⟩ :=
              getCompleteListGo_reqs_extend upstream perPage fuel 2 ([] ++ itemRecords b) ([] ++ [1])
            simp only [List.nil_append] at ht
            simp [getCompleteListGo, hq, hpg, hle, ht]

/-- C6: starting from the empty countries cache, a call to `getCountries`
that returns a non-empty collection writes it to the cache, and a second
call (against any upstream whatsoever) returns that same collection with
zero page requests; when the fetch yields nothing, the empty collection is
returned after a non-empty sequence of attempted page requests, the cache
stays empty, and the next call repeats the whole computation, re-attempting
the fetch — only successes are cached. -/
theorem getCountries_cache_policy (upstream upstream2 : Nat → Nat → HttpOutcome Country) :
    ((getCountries upstream []).1 ≠ [] →
      getCountries upstream2 (getCountries upstream []).2.1
        = ((getCountries upstream []).1, (getCountries upstream []).1, [])) ∧
    ((getCompleteList upstream 5 100).1 = [] →
      getCountries upstream [] = ([], [], (getCompleteList upstream 5 100).2) ∧
      (getCompleteList upstream 5 100).2 ≠ [] ∧
      getCountries upstream (getCountries upstream []).2.1 = getCountries upstream []) := by
  have hcache0 : getCountries upstream [] =
      (if (getCompleteList upstream 5 100).1.length > 0
       then ((getCompleteList upstream 5 100).1.filter countryKeep,
             (getCompleteList upstream 5 100).1.filter countryKeep,
             (getCompleteList upstream 5 100).2)
       else ([], [], (getCompleteList upstream 5 100).2)) := by
    unfold getCountries
    simp
  constructor
  · intro hne
    by_cases hf : (getCompleteList upstream 5 100).1.length > 0
    · have h1 : getCountries upstream [] =
          ((getCompleteList upstream 5 100).1.filter countryKeep,
           (getCompleteList upstream 5 100).1.filter countryKeep,
           (getCompleteList upstream 5 100).2) := by
        rw [hcache0, if_pos hf]
      rw [h1] at hne ⊢
      have hne' : (getCompleteList upstream 5 100).1.filter countryKeep ≠ [] := hne
      have hlen : ((getCompleteList upstream 5 100).1.filter countryKeep).length > 0 :=
        List.length_pos.mpr hne'
      show getCountries upstream2 ((getCompleteList upstream 5 100).1.filter countryKeep)
        = ((getCompleteList upstream 5 100).1.filter countryKeep,
           (getCompleteList upstream 5 100).1.filter countryKeep, [])
      unfold getCountries
      rw [if_pos hlen]
    · have h0 : getCountries upstream [] = ([], [], (getCompleteList upstream 5 100).2) := by
        rw [hcache0, if_neg hf]
      rw [h0] at hne
      exact absurd rfl hne
  · intro hempty
    have hf : ¬ (getCompleteList upstream 5 100).1.length > 0 := by
      rw [hempty]
      simp
    have h0 : getCountries upstream [] = ([], [], (getCompleteList upstream 5 100).2) := by
      rw [hcache0, if_neg hf]
    refine ⟨h0, getCompleteList_reqs_nonempty upstream 5 100 (by omega), ?_⟩
    rw [h0]
    exact h0

/-- Witness for C6: a populated cache is served back with zero requests
even against a changed upstream, and a failed fetch leaves the cache empty
after a non-empty request sequence. -/
theorem getCountries_cache_policy_witness :
    getCountries (emptyUpstream Country) (getCountries countryUpstreamEx []).2.1
      = ((getCountries countryUpstreamEx []).1, (getCountries countryUpstreamEx []).1, []) ∧
    getCountries (emptyUpstream Country) []
      = ([], [], (getCompleteList (emptyUpstream Country) 5 100).2) ∧
    (getCompleteList (emptyUpstream Country) 5 100).2 ≠ [] :=
  ⟨(getCountries_cache_policy countryUpstreamEx (emptyUpstream Country)).1 (by decide),
   ((getCountries_cache_policy (emptyUpstream Country) (emptyUpstream Country)).2 (by decide)).1,
   ((getCountries_cache_policy (emptyUpstream Country) (emptyUpstream Country)).2 (by decide)).2.1⟩
